import Mathlib

/-!
Verification of the live-sync controller in yt-actual-live.user.ts
(LiveSyncManager) together with the mirror functions from the test suite.
The mutable fields of the manager become an explicit state record; seconds
are exact rationals, millisecond timestamps are integers.  For the claims
that hinge on JavaScript number semantics (NaN, Infinity) a small model of
IEEE comparison on doubles is used instead.
-/

namespace LiveSync

/-- The mutable fields of LiveSyncManager consulted by the seek classifier
and the sync controller: dvrModeActive, lastKnownTime, seekStartTime,
lastSyncTime (ms timestamp), syncCooldown. -/
structure SyncState where
  dvrModeActive : Bool
  lastKnownTime : ℚ
  seekStartTime : ℚ
  lastSyncTime : ℤ
  syncCooldown : Bool
deriving DecidableEq, Repr

/-- Embeds onTimeUpdate: lastKnownTime := currentTime. -/
def onTimeUpdate (currentTime : ℚ) (s : SyncState) : SyncState :=
  { s with lastKnownTime := currentTime }

/-- Embeds onSeeking: seekStartTime := lastKnownTime. -/
def onSeeking (s : SyncState) : SyncState :=
  { s with seekStartTime := s.lastKnownTime }

/-- Embeds onSeeked (the seeked handler): if Date.now() - lastSyncTime < 1000
the event is ignored; otherwise jumpBack = seekStartTime - currentTime and
dvrModeActive is set when jumpBack > 5. -/
def onSeeked (newCurrentTime : ℚ) (now : ℤ) (s : SyncState) : SyncState :=
  if now - s.lastSyncTime < 1000 then s
  else
    let jumpBack := s.seekStartTime - newCurrentTime
    if jumpBack > 5 then { s with dvrModeActive := true } else s

/-- The latency record built by getLatencyInfo: buffered edge, current
playback position, and latency = edge - current. -/
structure LatencyInfo where
  edge : ℚ
  current : ℚ
  latency : ℚ
deriving DecidableEq, Repr

/-- Embeds getLatencyInfo: null when no buffered range exists or the
buffered edge is not strictly ahead of the current position. -/
def getLatencyInfo (bufferedLength : Nat) (edge current : ℚ) :
    Option LatencyInfo :=
  if bufferedLength = 0 then none
  else if edge ≤ current then none
  else some ⟨edge, current, edge - current⟩

/-- Embeds the tail of handleSync after the DVR gate: on no latency info
return; when latency > targetBuffer + 1.0 either consume the cooldown or
mark the sync time, raise the cooldown and seek to edge - targetBuffer;
otherwise clear the cooldown.  The second component is the seek request. -/
def syncDecision (info : Option LatencyInfo) (targetBuffer : ℚ) (now : ℤ)
    (s : SyncState) : SyncState × Option ℚ :=
  match info with
  | none => (s, none)
  | some i =>
    if i.latency > targetBuffer + 1 then
      if s.syncCooldown then ({ s with syncCooldown := false }, none)
      else ({ s with lastSyncTime := now, syncCooldown := true },
            some (i.edge - targetBuffer))
    else ({ s with syncCooldown := false }, none)

/-- Embeds handleSync from the point where an active live video is in hand:
when dvrModeActive, exit DVR only if a latency sample exists with
latency <= targetBuffer + 1.0 and fall through to the sync decision in the
same tick, else return unchanged; when not in DVR mode go straight to the
sync decision. -/
def handleSync (info : Option LatencyInfo) (targetBuffer : ℚ) (now : ℤ)
    (s : SyncState) : SyncState × Option ℚ :=
  if s.dvrModeActive then
    match info with
    | some i =>
      if i.latency ≤ targetBuffer + 1 then
        syncDecision (some i) targetBuffer now { s with dvrModeActive := false }
      else (s, none)
    | none => (s, none)
  else syncDecision info targetBuffer now s

/-- The action labels of the simulateSyncTick test mirror. -/
inductive TickAction where
  | synced
  | cooldown
  | noSync
deriving DecidableEq, Repr

/-- Embeds simulateSyncTick from the test suite: the sync decision and
cooldown logic of handleSync on a bare (latency, targetBuffer, cooldown)
triple, returning the action label and the next cooldown flag. -/
def simulateSyncTick (latency targetBuffer : ℚ) (syncCooldown : Bool) :
    TickAction × Bool :=
  let threshold : ℚ := 1
  if latency > targetBuffer + threshold then
    if syncCooldown then (TickAction.cooldown, false)
    else (TickAction.synced, true)
  else (TickAction.noSync, false)

/-- Runs simulateSyncTick over a latency sequence, threading the cooldown
flag, as the four-tick scenario test does. -/
def runSimTicks : List ℚ → ℚ → Bool → List TickAction × Bool
  | [], _, cd => ([], cd)
  | l :: ls, tb, cd =>
    let t := simulateSyncTick l tb cd
    let rest := runSimTicks ls tb t.2
    (t.1 :: rest.1, rest.2)

/-- Runs handleSync over a sequence of latency samples, threading the state,
advancing the clock by the check interval each tick, and recording each
tick's resulting state and seek request. -/
def runSyncTicks : List LatencyInfo → ℚ → ℤ → SyncState →
    List (SyncState × Option ℚ)
  | [], _, _, _ => []
  | i :: is, tb, now, s =>
    let t := handleSync (some i) tb now s
    t :: runSyncTicks is tb (now + 6000) t.1

/-- JavaScript double values as the claims need them: NaN, the two
infinities, and finite values as exact rationals. -/
inductive JSNum where
  | nan
  | posInf
  | negInf
  | fin (q : ℚ)
deriving DecidableEq, Repr

/-- IEEE strict less-than on doubles: any comparison with NaN is false. -/
def JSNum.lt : JSNum → JSNum → Bool
  | .nan, _ => false
  | _, .nan => false
  | .negInf, .negInf => false
  | .negInf, _ => true
  | _, .negInf => false
  | .posInf, _ => false
  | .fin _, .posInf => true
  | .fin a, .fin b => decide (a < b)

/-- IEEE strict greater-than on doubles. -/
def JSNum.gt (a b : JSNum) : Bool :=
  JSNum.lt b a

/-- IEEE less-or-equal on doubles: false whenever either side is NaN. -/
def JSNum.le : JSNum → JSNum → Bool
  | .nan, _ => false
  | _, .nan => false
  | a, b => !(JSNum.lt b a)

/-- IEEE greater-or-equal on doubles. -/
def JSNum.ge (a b : JSNum) : Bool :=
  JSNum.le b a

/-- JavaScript values by typeof class, as fed to setBuffer: a number (with
its double value), a string, a boolean, null or undefined. -/
inductive JSVal where
  | num (n : JSNum)
  | strVal
  | boolVal (b : Bool)
  | nullVal
  | undefVal
deriving DecidableEq, Repr

/-- Whether typeof the value is the number type. -/
def JSVal.typeofNumber : JSVal → Bool
  | .num _ => true
  | _ => false

/-- The persisted configuration record. -/
structure Config where
  enabled : Bool
  targetBuffer : JSNum
  checkInterval : ℤ
  debugLogging : Bool
deriving DecidableEq, Repr

/-- DEFAULT_CONFIG from the source. -/
def defaultConfig : Config :=
  { enabled := true, targetBuffer := JSNum.fin 5, checkInterval := 6000,
    debugLogging := false }

/-- Embeds setBuffer: rejected (returning the old config, nothing saved)
when typeof seconds is not number or seconds < 0 holds; otherwise
saveConfig runs with targetBuffer := seconds.  The Bool reports whether
saveConfig was invoked. -/
def setBuffer (seconds : JSVal) (c : Config) : Config × Bool :=
  match seconds with
  | .num n =>
    if JSNum.lt n (JSNum.fin 0) then (c, false)
    else ({ c with targetBuffer := n }, true)
  | _ => (c, false)

/-- The hosts distinguished by LiveSyncManager. -/
inductive Host where
  | standardYT
  | yttv
  | other
deriving DecidableEq, Repr

/-- Embeds isLiveContent: on standard YouTube the player's isLive flag
(none models a missing player or getVideoData not being a function); on
YouTube TV a video must be present with duration > 21600; elsewhere false.
The video argument is modeled by its duration. -/
def isLiveContent (host : Host) (playerIsLive : Option Bool)
    (video : Option JSNum) : Bool :=
  match host with
  | .standardYT =>
    match playerIsLive with
    | some b => b
    | none => false
  | .yttv =>
    match video with
    | some d => JSNum.gt d (JSNum.fin 21600)
    | none => false
  | .other => false

/- ### Helper lemmas -/

/-- The sync decision never touches the DVR flag. -/
theorem syncDecision_dvrModeActive (info : Option LatencyInfo)
    (targetBuffer : ℚ) (now : ℤ) (s : SyncState) :
    (syncDecision info targetBuffer now s).1.dvrModeActive =
      s.dvrModeActive := by
  unfold syncDecision
  cases info with
  | none => rfl
  | some i =>
    by_cases h : i.latency > targetBuffer + 1
    · by_cases hc : s.syncCooldown <;> simp [h, hc]
    · simp [h]

/-- A raised cooldown entering the sync decision with a latency sample is
always consumed. -/
theorem syncDecision_consumes_cooldown (i : LatencyInfo) (targetBuffer : ℚ)
    (now : ℤ) (s : SyncState) (hcd : s.syncCooldown = true) :
    (syncDecision (some i) targetBuffer now s).1.syncCooldown = false := by
  unfold syncDecision
  by_cases h : i.latency > targetBuffer + 1
  · simp [h, hcd]
  · simp [h]

/- ### Claim theorems -/

/-- C1: for a seek-end handled outside the grace period (1000 ms or more
since the last sync), onSeeked sets dvrModeActive to true exactly when
jumpBack = seekStartTime - newCurrentTime is strictly greater than 5; for
jumpBack = 5, any smaller backward jump, a zero jump, or any forward jump
the whole state is unchanged. -/
theorem onSeeked_dvr_activation (s : SyncState) (newCurrentTime : ℚ)
    (now : ℤ) (h : 1000 ≤ now - s.lastSyncTime) :
    (5 < s.seekStartTime - newCurrentTime →
      onSeeked newCurrentTime now s = { s with dvrModeActive := true }) ∧
    (s.seekStartTime - newCurrentTime ≤ 5 →
      onSeeked newCurrentTime now s = s) := by
  have hg : ¬ (now - s.lastSyncTime < 1000) := not_lt.2 h
  constructor
  · intro hj
    simp [onSeeked, hg, hj]
  · intro hj
    simp [onSeeked, hg, not_lt.2 hj]

/-- Witness for C1: a 30-second rewind 5000 ms after the last sync
activates DVR mode, and a rewind of exactly 5 seconds leaves the state
unchanged. -/
theorem onSeeked_dvr_activation_witness :
    onSeeked 70 5000 ⟨false, 100, 100, 0, false⟩ =
      { (⟨false, 100, 100, 0, false⟩ : SyncState) with dvrModeActive := true } ∧
    onSeeked 95 5000 ⟨false, 100, 100, 0, false⟩ =
      ⟨false, 100, 100, 0, false⟩ :=
  ⟨(onSeeked_dvr_activation ⟨false, 100, 100, 0, false⟩ 70 5000
      (by decide)).1 (by norm_num),
   (onSeeked_dvr_activation ⟨false, 100, 100, 0, false⟩ 95 5000
      (by decide)).2 (by norm_num)⟩

/-- C2: a seek-end strictly inside the 1000 ms grace period is a complete
no-op on the state, regardless of jump size; at exactly 1000 ms the seek is
evaluated, so a jump back greater than 5 activates DVR mode. -/
theorem onSeeked_grace_period (s : SyncState) (newCurrentTime : ℚ)
    (now : ℤ) :
    (now - s.lastSyncTime < 1000 → onSeeked newCurrentTime now s = s) ∧
    (now - s.lastSyncTime = 1000 → 5 < s.seekStartTime - newCurrentTime →
      (onSeeked newCurrentTime now s).dvrModeActive = true) := by
  constructor
  · intro hlt
    simp [onSeeked, hlt]
  · intro heq hj
    have hg : ¬ (now - s.lastSyncTime < 1000) := by omega
    simp [onSeeked, hg, hj]

/-- Witness for C2: a 50-second rewind 500 ms after the last sync is
ignored, while the same rewind exactly 1000 ms after the last sync
activates DVR mode. -/
theorem onSeeked_grace_period_witness :
    onSeeked 50 500 ⟨false, 100, 100, 0, false⟩ =
      ⟨false, 100, 100, 0, false⟩ ∧
    (onSeeked 50 1000 ⟨false, 100, 100, 0, false⟩).dvrModeActive = true :=
  ⟨(onSeeked_grace_period ⟨false, 100, 100, 0, false⟩ 50 500).1 (by decide),
   (onSeeked_grace_period ⟨false, 100, 100, 0, false⟩ 50 1000).2
      (by decide) (by norm_num)⟩

/-- C3: on a tick with dvrModeActive and a latency sample, a latency above
targetBuffer + 1.0 keeps the state unchanged (no seek, whatever the
cooldown); a latency at or below targetBuffer + 1.0 clears dvrModeActive
and the very same tick runs the sync decision on that latency. -/
theorem handleSync_dvr_gate (s : SyncState) (i : LatencyInfo)
    (targetBuffer : ℚ) (now : ℤ) (hdvr : s.dvrModeActive = true) :
    (targetBuffer + 1 < i.latency →
      handleSync (some i) targetBuffer now s = (s, none)) ∧
    (i.latency ≤ targetBuffer + 1 →
      handleSync (some i) targetBuffer now s =
        syncDecision (some i) targetBuffer now
          { s with dvrModeActive := false } ∧
      (handleSync (some i) targetBuffer now s).1.dvrModeActive = false) := by
  constructor
  · intro hlat
    simp [handleSync, hdvr, not_le.2 hlat]
  · intro hlat
    have he : handleSync (some i) targetBuffer now s =
        syncDecision (some i) targetBuffer now
          { s with dvrModeActive := false } := by
      simp [handleSync, hdvr, hlat]
    exact ⟨he, by rw [he, syncDecision_dvrModeActive]⟩

/-- Witness for C3: in DVR mode with targetBuffer 5, latency 8 is a no-op
skip, while latency 6 (exactly targetBuffer + 1.0) exits DVR mode. -/
theorem handleSync_dvr_gate_witness :
    handleSync (some ⟨10, 2, 8⟩) 5 0 ⟨true, 0, 0, 0, false⟩ =
      (⟨true, 0, 0, 0, false⟩, none) ∧
    (handleSync (some ⟨100, 94, 6⟩) 5 0 ⟨true, 0, 0, 0, false⟩).1.dvrModeActive
      = false :=
  ⟨(handleSync_dvr_gate ⟨true, 0, 0, 0, false⟩ ⟨10, 2, 8⟩ 5 0 rfl).1
      (by norm_num),
   ((handleSync_dvr_gate ⟨true, 0, 0, 0, false⟩ ⟨100, 94, 6⟩ 5 0 rfl).2
      (by norm_num)).2⟩

/-- C4: on a tick with DVR mode off and a latency sample, against
threshold = targetBuffer + 1.0: latency at or below the threshold clears
the cooldown with no seek; latency above the threshold with the cooldown
raised clears the cooldown with no seek; latency above the threshold with
the cooldown down records lastSyncTime = now, raises the cooldown and
issues exactly one seek to edge - targetBuffer. -/
theorem handleSync_sync_decision (s : SyncState) (i : LatencyInfo)
    (targetBuffer : ℚ) (now : ℤ) (hdvr : s.dvrModeActive = false) :
    (i.latency ≤ targetBuffer + 1 →
      handleSync (some i) targetBuffer now s =
        ({ s with syncCooldown := false }, none)) ∧
    (targetBuffer + 1 < i.latency → s.syncCooldown = true →
      handleSync (some i) targetBuffer now s =
        ({ s with syncCooldown := false }, none)) ∧
    (targetBuffer + 1 < i.latency → s.syncCooldown = false →
      handleSync (some i) targetBuffer now s =
        ({ s with lastSyncTime := now, syncCooldown := true },
         some (i.edge - targetBuffer))) := by
  refine ⟨fun hlat => ?_, fun hlat hcd => ?_, fun hlat hcd => ?_⟩
  · simp [handleSync, hdvr, syncDecision, not_lt.2 hlat]
  · simp [handleSync, hdvr, syncDecision, hlat, hcd]
  · simp [handleSync, hdvr, syncDecision, hlat, hcd]

/-- Witness for C4: with targetBuffer 5 and DVR mode off, latency 4.29
clears the cooldown; latency 15.66 with the cooldown raised consumes it
with no seek; latency 12.74 with the cooldown down seeks to
edge - 5. -/
theorem handleSync_sync_decision_witness :
    handleSync (some ⟨50, 45.71, 4.29⟩) 5 0 ⟨false, 0, 0, 0, false⟩ =
      (⟨false, 0, 0, 0, false⟩, none) ∧
    handleSync (some ⟨60, 44.34, 15.66⟩) 5 0 ⟨false, 0, 0, 7, true⟩ =
      (⟨false, 0, 0, 7, false⟩, none) ∧
    handleSync (some ⟨70, 57.26, 12.74⟩) 5 9 ⟨false, 0, 0, 7, false⟩ =
      (⟨false, 0, 0, 9, true⟩, some 65) :=
  ⟨(handleSync_sync_decision ⟨false, 0, 0, 0, false⟩ ⟨50, 45.71, 4.29⟩
      5 0 rfl).1 (by norm_num),
   (handleSync_sync_decision ⟨false, 0, 0, 7, true⟩ ⟨60, 44.34, 15.66⟩
      5 0 rfl).2.1 (by norm_num) rfl,
   by
    have h := (handleSync_sync_decision ⟨false, 0, 0, 7, false⟩
      ⟨70, 57.26, 12.74⟩ 5 9 rfl).2.2 (by norm_num) rfl
    rw [h]
    norm_num⟩

/-- C5: from cooldown down, targetBuffer 5.0 and DVR mode off, the latency
sequence [12.74, 15.66, 9.30, 4.29] produces the tick actions
[synced, cooldown, synced, no-sync] in the test mirror, and on handleSync
the seek/cooldown trace [seek issued with cooldown raised, no seek with
cooldown cleared, seek issued with cooldown raised, no seek with cooldown
cleared], ending with the cooldown down. -/
theorem syncController_four_tick_scenario :
    runSimTicks [(1274/100 : ℚ), 1566/100, 930/100, 429/100] 5 false =
      ([TickAction.synced, TickAction.cooldown, TickAction.synced,
        TickAction.noSync], false) ∧
    (runSyncTicks
        [⟨100, 100 - 1274/100, 1274/100⟩, ⟨200, 200 - 1566/100, 1566/100⟩,
         ⟨300, 300 - 930/100, 930/100⟩, ⟨400, 400 - 429/100, 429/100⟩] 5 0
        ⟨false, 0, 0, 0, false⟩).map
      (fun t => (t.2, t.1.syncCooldown)) =
      [(some 95, true), (none, false), (some 295, true), (none, false)] := by
  constructor
  · norm_num [runSimTicks, simulateSyncTick]
  · norm_num [runSyncTicks, handleSync, syncDecision]

/-- C6 counterexample: with the cooldown raised and no latency sample, two
consecutive ticks of the controller both leave syncCooldown = true, so a
raised cooldown does survive two consecutive ticks. -/
theorem syncCooldown_persistence_counterexample :
    (handleSync none 5 0 ⟨false, 0, 0, 0, true⟩).1.syncCooldown = true ∧
    ((handleSync none 5 6000
        (handleSync none 5 0 ⟨false, 0, 0, 0, true⟩).1).1).syncCooldown
      = true := by
  constructor
  · rfl
  · rfl

/-- C6 amended: a raised syncCooldown is consumed by any tick that reaches
the sync decision, i.e. any tick with a latency sample in which DVR mode is
off or auto-exits (latency at most targetBuffer + 1.0); ticks without a
latency sample, or DVR-skip ticks, leave it untouched. -/
theorem syncCooldown_consumed_when_decision_reached (s : SyncState)
    (i : LatencyInfo) (targetBuffer : ℚ) (now : ℤ)
    (hcd : s.syncCooldown = true)
    (hreach : s.dvrModeActive = true → i.latency ≤ targetBuffer + 1) :
    (handleSync (some i) targetBuffer now s).1.syncCooldown = false := by
  by_cases hdvr : s.dvrModeActive
  · have hlat := hreach hdvr
    have he : handleSync (some i) targetBuffer now s =
        syncDecision (some i) targetBuffer now
          { s with dvrModeActive := false } := by
      simp [handleSync, hdvr, hlat]
    rw [he]
    exact syncDecision_consumes_cooldown _ _ _ _ hcd
  · have he : handleSync (some i) targetBuffer now s =
        syncDecision (some i) targetBuffer now s := by
      simp [handleSync, hdvr]
    rw [he]
    exact syncDecision_consumes_cooldown _ _ _ _ hcd

/-- Witness for the amended C6: a raised cooldown is consumed both on a
high-latency tick with DVR mode off and on a DVR auto-exit tick. -/
theorem syncCooldown_consumed_witness :
    (handleSync (some ⟨20, 10, 10⟩) 5 0
        ⟨false, 0, 0, 0, true⟩).1.syncCooldown = false ∧
    (handleSync (some ⟨20, 14, 6⟩) 5 0
        ⟨true, 0, 0, 0, true⟩).1.syncCooldown = false :=
  ⟨syncCooldown_consumed_when_decision_reached ⟨false, 0, 0, 0, true⟩
      ⟨20, 10, 10⟩ 5 0 rfl (fun h => Bool.noConfusion h),
   syncCooldown_consumed_when_decision_reached ⟨true, 0, 0, 0, true⟩
      ⟨20, 14, 6⟩ 5 0 rfl (fun _ => by norm_num)⟩

/-- C7: a tick without a latency sample is a complete no-op — the state
(including syncCooldown and dvrModeActive) is returned unchanged and no
seek is issued; getLatencyInfo yields no sample when there is no buffered
range or the buffered edge is not strictly ahead of the current position;
in particular a DVR-mode tick without a sample stays in DVR mode. -/
theorem tick_without_latency_sample (s : SyncState) (targetBuffer : ℚ)
    (now : ℤ) (bufferedLength : Nat) (edge current : ℚ) :
    handleSync none targetBuffer now s = (s, none) ∧
    getLatencyInfo 0 edge current = none ∧
    (edge ≤ current → getLatencyInfo bufferedLength edge current = none) ∧
    (s.dvrModeActive = true →
      (handleSync none targetBuffer now s).1.dvrModeActive = true) := by
  have hmain : handleSync none targetBuffer now s = (s, none) := by
    by_cases hdvr : s.dvrModeActive <;> simp [handleSync, hdvr, syncDecision]
  refine ⟨hmain, rfl, fun hle => ?_, fun hdvr => by rw [hmain]; exact hdvr⟩
  unfold getLatencyInfo
  by_cases hb : bufferedLength = 0 <;> simp [hb, hle]

/-- Witness for C7: with the cooldown raised and DVR mode on, a tick with
no latency sample changes nothing, and a buffered edge behind the current
position yields no latency sample. -/
theorem tick_without_latency_sample_witness :
    handleSync none 5 0 ⟨true, 0, 0, 0, true⟩ =
      (⟨true, 0, 0, 0, true⟩, none) ∧
    getLatencyInfo 1 90 100 = none :=
  ⟨(tick_without_latency_sample ⟨true, 0, 0, 0, true⟩ 5 0 1 90 100).1,
   (tick_without_latency_sample ⟨true, 0, 0, 0, true⟩ 5 0 1 90 100).2.2.1
      (by norm_num)⟩

/-- C8: setBuffer rejects any value whose typeof is not number and any
negative number, returning with the configuration unchanged and nothing
persisted; any number at least 0 in the IEEE order is accepted and becomes
the new targetBuffer. -/
theorem setBuffer_validation (v : JSVal) (n : JSNum) (c : Config) :
    (JSVal.typeofNumber v = false → setBuffer v c = (c, false)) ∧
    (JSNum.lt n (JSNum.fin 0) = true →
      setBuffer (JSVal.num n) c = (c, false)) ∧
    (JSNum.ge n (JSNum.fin 0) = true →
      setBuffer (JSVal.num n) c = ({ c with targetBuffer := n }, true)) := by
  refine ⟨fun hv => ?_, fun hneg => ?_, fun hge => ?_⟩
  · cases v <;> simp_all [JSVal.typeofNumber, setBuffer]
  · simp [setBuffer, hneg]
  · have hlt : JSNum.lt n (JSNum.fin 0) = false := by
      cases n with
      | nan => simp [JSNum.ge, JSNum.le] at hge
      | posInf => rfl
      | negInf => simp [JSNum.ge, JSNum.le, JSNum.lt] at hge
      | fin q =>
        simp only [JSNum.ge, JSNum.le, JSNum.lt, Bool.not_eq_true'] at hge
        exact hge
    simp [setBuffer, hlt]

/-- Witness for C8: on the default configuration, a string is rejected,
-1 is rejected, and 7 is accepted as the new targetBuffer. -/
theorem setBuffer_validation_witness :
    setBuffer JSVal.strVal defaultConfig = (defaultConfig, false) ∧
    setBuffer (JSVal.num (JSNum.fin (-1))) defaultConfig =
      (defaultConfig, false) ∧
    setBuffer (JSVal.num (JSNum.fin 7)) defaultConfig =
      ({ defaultConfig with targetBuffer := JSNum.fin 7 }, true) :=
  ⟨(setBuffer_validation JSVal.strVal JSNum.nan defaultConfig).1 rfl,
   (setBuffer_validation JSVal.strVal (JSNum.fin (-1)) defaultConfig).2.1
      (by norm_num [JSNum.lt]),
   (setBuffer_validation JSVal.strVal (JSNum.fin 7) defaultConfig).2.2
      (by norm_num [JSNum.ge, JSNum.le, JSNum.lt])⟩

/-- C9: on YouTube TV the live-content predicate holds exactly when a video
is present with duration > 21600: duration 21600 is not live, 21601 is
live, Infinity is live, and a missing video or NaN duration is not
live. -/
theorem isLiveContent_yttv_duration (p : Option Bool) (d : JSNum) :
    isLiveContent Host.yttv p (some d) = JSNum.gt d (JSNum.fin 21600) ∧
    isLiveContent Host.yttv p none = false ∧
    isLiveContent Host.yttv p (some (JSNum.fin 21600)) = false ∧
    isLiveContent Host.yttv p (some (JSNum.fin 21601)) = true ∧
    isLiveContent Host.yttv p (some JSNum.posInf) = true ∧
    isLiveContent Host.yttv p (some JSNum.nan) = false := by
  refine ⟨rfl, rfl, ?_, ?_, rfl, rfl⟩
  · norm_num [isLiveContent, JSNum.gt, JSNum.lt]
  · norm_num [isLiveContent, JSNum.gt, JSNum.lt]

/-- C10: NaN passes the setBuffer guard — typeof NaN is number and
NaN < 0 is false — so the call is accepted and targetBuffer becomes NaN,
persisted via saveConfig. -/
theorem setBuffer_accepts_nan (c : Config) :
    JSVal.typeofNumber (JSVal.num JSNum.nan) = true ∧
    JSNum.lt JSNum.nan (JSNum.fin 0) = false ∧
    setBuffer (JSVal.num JSNum.nan) c =
      ({ c with targetBuffer := JSNum.nan }, true) := by
  refine ⟨rfl, rfl, ?_⟩
  simp [setBuffer, JSNum.lt]

end LiveSync
